import Mathlib

/-!
Shallow embedding of `src/pysofa/sofa.py` (the pySOFA reader) and proofs
about its construction pipeline.

Modelling conventions:
* An open PyTables container (`tables.file.File`) is a `Handle` wrapping a
  `Container`: an association list of dataset nodes (path → array payload,
  arrays modelled as `List Int`) and of node attributes
  ((path, attribute) → string value).  Paths listed in `brokenNodes` /
  `brokenAttrs` model reads that raise an exception other than
  `AttributeError` (I/O error, corruption).
* A pySOFA object is an `Obj`: a dynamic field table written by `setattr`
  and read by `getattr?` — absence of a key models "attribute never
  assigned" in Python.
* Python exceptions are the `Exn` type; `raise Exception(msg)` becomes
  `Exn.exception msg`, a propagated non-`AttributeError` read failure
  becomes `Exn.ioErr`.
* Side effects on file handles are logged in a `Trace`: every
  `tables.open_file(path)` call appends `path` to `opened` and allocates a
  fresh handle id; every `handle.close()` appends the handle id to
  `closed`.  A function that can raise returns `(state, trace, Option Exn)`
  where `some e` means the Python exception `e` propagated out of it; the
  state component is the object as mutated up to the point of the raise
  (Python mutates `self` in place).
-/

namespace PySofa

/-- Outcome of one underlying container read: the payload, a missing
node/attribute (PyTables raises an `AttributeError` subclass), or any
other failure (I/O error, corruption). -/
inductive ReadResult (α : Type) where
  | found (v : α)
  | missing
  | ioError
deriving DecidableEq, Repr

/-- Association-list lookup by key (first binding wins). -/
def lookupKey {α β : Type} [DecidableEq α] : α → List (α × β) → Option β
  | _, [] => none
  | a, (k, b) :: es => if a = k then some b else lookupKey a es

/-- Contents of a SOFA/HDF container as seen through the PyTables API. -/
structure Container where
  nodes : List (String × List Int)
  attrs : List ((String × String) × String)
  brokenNodes : List String
  brokenAttrs : List (String × String)
deriving DecidableEq, Repr

/-- `tblsfile.get_node(node).read()`. -/
def Container.get_node (c : Container) (node : String) : ReadResult (List Int) :=
  if node ∈ c.brokenNodes then .ioError
  else
    match lookupKey node c.nodes with
    | some v => .found v
    | none => .missing

/-- `tblsfile.get_node_attr(node, attribute)`. -/
def Container.get_node_attr (c : Container) (node attr : String) :
    ReadResult String :=
  if (node, attr) ∈ c.brokenAttrs then .ioError
  else
    match lookupKey (node, attr) c.attrs with
    | some v => .found v
    | none => .missing

/-- A value stored on a pySOFA object: dataset payload or attribute string. -/
inductive FieldVal where
  | arr (v : List Int)
  | str (s : String)
deriving DecidableEq, Repr

/-- A pySOFA object's dynamic field table (Python instance `__dict__`). -/
structure Obj where
  fields : List (String × FieldVal)
deriving DecidableEq, Repr

def Obj.empty : Obj := ⟨[]⟩

/-- `setattr(object, n, v)`. -/
def Obj.setattr (o : Obj) (n : String) (v : FieldVal) : Obj :=
  ⟨(n, v) :: o.fields⟩

/-- `getattr(object, n, None)`: `none` models "attribute never assigned". -/
def Obj.getattr? (o : Obj) (n : String) : Option FieldVal :=
  lookupKey n o.fields

/-- A propagating Python exception. -/
inductive Exn where
  | exception (msg : String)
  | ioErr
  | attributeError
deriving DecidableEq, Repr

/-- `if not name: name = dflt` — Python falsiness on the `name` keyword. -/
def pick_name (name : Option String) (dflt : String) : String :=
  match name with
  | some n => if n = "" then dflt else n
  | none => dflt

/-- `_add_data(object, tblsfile, node, required, name)` from sofa.py. -/
def _add_data (obj : Obj) (tblsfile : Container) (node : String)
    (required : Bool) (name : Option String) : Except Exn (Obj × Nat) :=
  match tblsfile.get_node node with
  | .found value => .ok (obj.setattr (pick_name name node) (.arr value), 0)
  | .missing =>
      if required then
        .error (.exception ("Required Dataset " ++ node ++ " not found!"))
      else .ok (obj, 1)
  | .ioError => .error .ioErr

/-- `_add_attribute(object, tblsfile, node, attribute, required, name)`. -/
def _add_attribute (obj : Obj) (tblsfile : Container) (node attr : String)
    (required : Bool) (name : Option String) : Except Exn (Obj × Nat) :=
  match tblsfile.get_node_attr node attr with
  | .found value => .ok (obj.setattr (pick_name name attr) (.str value), 0)
  | .missing =>
      if required then
        .error (.exception ("Required Attribute " ++ attr ++ " not found!"))
      else .ok (obj, 1)
  | .ioError => .error .ioErr

/-- An open PyTables handle: the container it gives access to plus an
identity used to log `close()` calls. -/
structure Handle where
  contents : Container
  hid : Nat
deriving DecidableEq, Repr

/-- Log of file-handle side effects during one construction. -/
structure Trace where
  opened : List String
  closed : List Nat
  nextId : Nat
deriving DecidableEq, Repr

def Trace.init : Trace := ⟨[], [], 0⟩

/-- `tbls.open_file(path)`: reads the file system at `path`, yields a fresh
handle and logs the opened path. -/
def open_file (fs : String → Container) (path : String) (tr : Trace) :
    Handle × Trace :=
  (⟨fs path, tr.nextId⟩, ⟨tr.opened ++ [path], tr.closed, tr.nextId + 1⟩)

/-- `handle.close()`: logs the close. -/
def Handle.close (h : Handle) (tr : Trace) : Trace :=
  ⟨tr.opened, tr.closed ++ [h.hid], tr.nextId⟩

/-- The `sofa_file` argument: a `tables.file.File` handle or a `str` path
(`isinstance(sofa_file, tbls.file.File)` distinguishes the two). -/
inductive SofaFile where
  | handle (h : Handle)
  | path (p : String)
deriving DecidableEq, Repr

/-- Python truthiness of the optional `sofa_file` constructor argument:
`None` and the empty string are falsy, a handle and a non-empty path are
truthy. -/
def SofaFile.truthy : Option SofaFile → Bool
  | none => false
  | some (.path p) => !p.isEmpty
  | some (.handle _) => true

/-- One `for param in params: _add_*(…)` loop: each step either mutates the
object and continues, or raises — the raised exception propagates and the
object keeps the mutations of the earlier iterations. -/
def runBinds (obj : Obj) (step : Obj → String → Except Exn (Obj × Nat)) :
    List String → Obj × Option Exn
  | [] => (obj, none)
  | p :: rest =>
    match step obj p with
    | .error e => (obj, some e)
    | .ok (obj', _) => runBinds obj' step rest

/-! ## FIR -/

namespace FIR

def datasets : List String := ["Data.IR", "Data.Delay", "Data.SamplingRate"]

def attributes : List String := ["Units"]

/-- `FIR.from_file`.  NOTE (faithful to the source): when `sofa_file` is a
string path the code opens the hardcoded file `'dtf_nh2.sofa'`, ignoring
the caller-supplied path. -/
def from_file (self : Obj) (fs : String → Container) (sofa_file : SofaFile)
    (tr : Trace) : Obj × Trace × Option Exn :=
  let ht : Handle × Trace :=
    match sofa_file with
    | .path _ => open_file fs "dtf_nh2.sofa" tr
    | .handle h => (h, tr)
  let tblsfile := ht.1
  let tr := ht.2
  match runBinds self
      (fun o param =>
        _add_data o tblsfile.contents ("/" ++ param) true (some (param.drop 5)))
      datasets with
  | (self, some e) => (self, tr, some e)
  | (self, none) =>
    match runBinds self
        (fun o param =>
          _add_attribute o tblsfile.contents ("/" ++ "Data.SamplingRate") param
            true (some ("SamplingRate" ++ param)))
        attributes with
    | (self, some e) => (self, tr, some e)
    | (self, none) =>
      match sofa_file with
      | .path _ => (self, tblsfile.close tr, none)
      | .handle _ => (self, tr, none)

/-- `FIR.__init__(sofa_file=None)`. -/
def init (sofa_file : Option SofaFile) (fs : String → Container) (tr : Trace) :
    Obj × Trace × Option Exn :=
  let self := Obj.empty
  if SofaFile.truthy sofa_file then
    match sofa_file with
    | some f => from_file self fs f tr
    | none => (self, tr, none)
  else (self, tr, none)

end FIR

/-! ## AudioObject -/

/-- An `AudioObject` instance: the role string stored by `__init__` plus
the dynamic field table. -/
structure AudioObject where
  object_string : String
  obj : Obj
deriving DecidableEq, Repr

namespace AudioObject

def required_datasets : List String := ["Position"]

def req_attributes : List String := ["Type", "Units"]

def other_datasets : List String := ["Description", "View", "Up"]

/-- `AudioObject.from_file`.  NOTE (faithful to the source): when
`sofa_file` is a string path the code opens the hardcoded file
`'dtf_nh2.sofa'`, ignoring the caller-supplied path. -/
def from_file (self : AudioObject) (fs : String → Container)
    (sofa_file : SofaFile) (tr : Trace) : AudioObject × Trace × Option Exn :=
  let ht : Handle × Trace :=
    match sofa_file with
    | .path _ => open_file fs "dtf_nh2.sofa" tr
    | .handle h => (h, tr)
  let tblsfile := ht.1
  let tr := ht.2
  match runBinds self.obj
      (fun o param =>
        _add_data o tblsfile.contents ("/" ++ self.object_string ++ param) true
          (some param))
      required_datasets with
  | (o, some e) => (⟨self.object_string, o⟩, tr, some e)
  | (o, none) =>
    match runBinds o
        (fun o param =>
          _add_attribute o tblsfile.contents
            ("/" ++ self.object_string ++ "Position") param true
            (some ("Position" ++ param)))
        req_attributes with
    | (o, some e) => (⟨self.object_string, o⟩, tr, some e)
    | (o, none) =>
      match runBinds o
          (fun o param =>
            _add_data o tblsfile.contents ("/" ++ self.object_string ++ param)
              false (some param))
          other_datasets with
      | (o, some e) => (⟨self.object_string, o⟩, tr, some e)
      | (o, none) =>
        match sofa_file with
        | .path _ => (⟨self.object_string, o⟩, tblsfile.close tr, none)
        | .handle _ => (⟨self.object_string, o⟩, tr, none)

/-- `AudioObject.__init__(object_string, sofa_file=None)`. -/
def init (object_string : String) (sofa_file : Option SofaFile)
    (fs : String → Container) (tr : Trace) : AudioObject × Trace × Option Exn :=
  let self : AudioObject := ⟨object_string, Obj.empty⟩
  if SofaFile.truthy sofa_file then
    match sofa_file with
    | some f => from_file self fs f tr
    | none => (self, tr, none)
  else (self, tr, none)

/-- `AudioObject.__len__`: `len(self.Position)`; accessing an unassigned
attribute raises `AttributeError`, `len` of a string is its length. -/
def len (a : AudioObject) : Except Exn Nat :=
  match a.obj.getattr? "Position" with
  | some (.arr v) => .ok v.length
  | some (.str s) => .ok s.length
  | none => .error .attributeError

end AudioObject

/-! ## SOFA -/

/-- A `SOFA` instance: root attribute table plus the entity fields assigned
by `from_file` (each `none` until its assignment statement runs). -/
structure SOFA where
  obj : Obj
  listener : Option AudioObject
  source : Option AudioObject
  receiver : Option AudioObject
  emitter : Option AudioObject
  data : Option Obj
deriving DecidableEq, Repr

namespace SOFA

def empty : SOFA := ⟨Obj.empty, none, none, none, none, none⟩

def req_attributes : List String :=
  ["Conventions", "Version", "SOFAConventions", "SOFAConventionsVersion",
   "DataType", "RoomType", "Title", "DateCreated", "DateModified", "APIName",
   "APIVersion", "AuthorContact", "Organization", "License"]

def other_attributes : List String :=
  ["ApplicationName", "ApplicationVersion", "Comment", "History",
   "References", "Origin"]

/-- `SOFA.from_file`.  Opens the caller-supplied path when given a string
(`tbls.open_file(sofa_file)`), binds the 14 required then 6 optional root
attributes, constructs the four `AudioObject`s and the FIR payload, and
closes the handle at the end only when it opened the file itself and only
if no exception propagated first. -/
def from_file (self : SOFA) (fs : String → Container) (sofa_file : SofaFile)
    (tr : Trace) : SOFA × Trace × Option Exn :=
  let ht : Handle × Trace :=
    match sofa_file with
    | .path p => open_file fs p tr
    | .handle h => (h, tr)
  let tblsfile := ht.1
  let tr := ht.2
  match runBinds self.obj
      (fun o param => _add_attribute o tblsfile.contents "/" param true none)
      req_attributes with
  | (o, some e) => ({ self with obj := o }, tr, some e)
  | (o, none) =>
    match runBinds o
        (fun o param => _add_attribute o tblsfile.contents "/" param false none)
        other_attributes with
    | (o, some e) => ({ self with obj := o }, tr, some e)
    | (o, none) =>
      let self := { self with obj := o }
      match AudioObject.init "Listener" (some (.handle tblsfile)) fs tr with
      | (_, tr, some e) => (self, tr, some e)
      | (ao, tr, none) =>
        let self := { self with listener := some ao }
        match AudioObject.init "Source" (some (.handle tblsfile)) fs tr with
        | (_, tr, some e) => (self, tr, some e)
        | (ao, tr, none) =>
          let self := { self with source := some ao }
          match AudioObject.init "Receiver" (some (.handle tblsfile)) fs tr with
          | (_, tr, some e) => (self, tr, some e)
          | (ao, tr, none) =>
            let self := { self with receiver := some ao }
            match AudioObject.init "Emitter" (some (.handle tblsfile)) fs tr with
            | (_, tr, some e) => (self, tr, some e)
            | (ao, tr, none) =>
              let self := { self with emitter := some ao }
              match self.obj.getattr? "DataType" with
              | some (.str v) =>
                if v = "FIR" then
                  match FIR.init (some (.handle tblsfile)) fs tr with
                  | (_, tr, some e) => (self, tr, some e)
                  | (fo, tr, none) =>
                    let self := { self with data := some fo }
                    match sofa_file with
                    | .path _ => (self, tblsfile.close tr, none)
                    | .handle _ => (self, tr, none)
                else
                  (self, tr,
                   some (.exception
                     "Currently only the Datatype FIR is Implemented"))
              | _ => (self, tr, some .attributeError)

/-- `SOFA.__init__(sofa_file=None)`. -/
def init (sofa_file : Option SofaFile) (fs : String → Container) (tr : Trace) :
    SOFA × Trace × Option Exn :=
  let self := empty
  if SofaFile.truthy sofa_file then
    match sofa_file with
    | some f => from_file self fs f tr
    | none => (self, tr, none)
  else (self, tr, none)

end SOFA

/-! ## Test fixtures -/

/-- A complete well-formed SOFA fixture whose root `DataType` is `tag`:
every required and optional root attribute, all four geometry roles with
their required and optional fields, and the FIR payload nodes. -/
def fixtureDT (tag : String) : Container :=
  { nodes :=
      [("/ListenerPosition", [1, 2, 3]),
       ("/ListenerDescription", [7]),
       ("/ListenerView", [1, 0, 0]),
       ("/ListenerUp", [0, 0, 1]),
       ("/SourcePosition", [4, 5, 6]),
       ("/SourceDescription", [8]),
       ("/SourceView", [1, 0, 0]),
       ("/SourceUp", [0, 0, 1]),
       ("/ReceiverPosition", [7, 8]),
       ("/ReceiverDescription", [9]),
       ("/ReceiverView", [1, 0, 0]),
       ("/ReceiverUp", [0, 0, 1]),
       ("/EmitterPosition", [9]),
       ("/EmitterDescription", [10]),
       ("/EmitterView", [1, 0, 0]),
       ("/EmitterUp", [0, 0, 1]),
       ("/Data.IR", [1, 2, 3, 4]),
       ("/Data.Delay", [0, 0]),
       ("/Data.SamplingRate", [44100])],
    attrs :=
      [(("/", "Conventions"), "SOFA"),
       (("/", "Version"), "1.0"),
       (("/", "SOFAConventions"), "SimpleFreeFieldHRIR"),
       (("/", "SOFAConventionsVersion"), "1.0"),
       (("/", "DataType"), tag),
       (("/", "RoomType"), "free field"),
       (("/", "Title"), "t"),
       (("/", "DateCreated"), "d1"),
       (("/", "DateModified"), "d2"),
       (("/", "APIName"), "api"),
       (("/", "APIVersion"), "0.1"),
       (("/", "AuthorContact"), "a"),
       (("/", "Organization"), "o"),
       (("/", "License"), "l"),
       (("/", "ApplicationName"), "appn"),
       (("/", "ApplicationVersion"), "appv"),
       (("/", "Comment"), "c"),
       (("/", "History"), "h"),
       (("/", "References"), "r"),
       (("/", "Origin"), "or"),
       (("/ListenerPosition", "Type"), "cartesian"),
       (("/ListenerPosition", "Units"), "metre"),
       (("/SourcePosition", "Type"), "spherical"),
       (("/SourcePosition", "Units"), "degree"),
       (("/ReceiverPosition", "Type"), "cartesian"),
       (("/ReceiverPosition", "Units"), "metre"),
       (("/EmitterPosition", "Type"), "cartesian"),
       (("/EmitterPosition", "Units"), "metre"),
       (("/Data.SamplingRate", "Units"), "hertz")],
    brokenNodes := [],
    brokenAttrs := [] }

/-- The well-formed fixture with `DataType = "FIR"`. -/
def fullFixture : Container := fixtureDT "FIR"

/-- A container holding nothing at all. -/
def emptyContainer : Container := ⟨[], [], [], []⟩

/-- The full fixture with every attribute named `X` removed. -/
def fixtureWithoutAttr (X : String) : Container :=
  { fullFixture with attrs := fullFixture.attrs.filter (fun t => t.1.2 != X) }

/-- The full fixture with the dataset node `n` removed. -/
def fixtureWithoutNode (n : String) : Container :=
  { fullFixture with nodes := fullFixture.nodes.filter (fun t => t.1 != n) }

/-! ## Derived accessors and example environments -/

/-- Read field `n` of an optional entity (for stating post-construction
facts about `SOFA.listener` etc.). -/
def optField? (e : Option AudioObject) (n : String) : Option FieldVal :=
  match e with
  | some ao => ao.obj.getattr? n
  | none => none

/-- Read field `n` of the optional data payload object. -/
def optDataField? (e : Option Obj) (n : String) : Option FieldVal :=
  match e with
  | some o => o.getattr? n
  | none => none

/-- Construct a `SOFA` directly from an already-open handle on `c`
(`SOFA().from_file(handle)` on a fresh object). -/
def runOn (c : Container) : SOFA × Trace × Option Exn :=
  SOFA.from_file SOFA.empty (fun _ => c) (.handle ⟨c, 0⟩) Trace.init

/-- A file system where only `mydata.sofa` holds a well-formed SOFA file;
in particular `dtf_nh2.sofa` does not exist / is empty. -/
def exampleFS : String → Container :=
  fun p => if p = "mydata.sofa" then fullFixture else emptyContainer

/-- A file system with no SOFA content anywhere. -/
def emptyFS : String → Container := fun _ => emptyContainer

/-- A file system where every path holds the well-formed fixture. -/
def fullFS : String → Container := fun _ => fullFixture

/-- A container whose reads at `/X` and of attribute `Y` at the root fail
with an error other than "not found". -/
def brokenContainer : Container := ⟨[], [], ["/X"], [("/", "Y")]⟩

/-- The full fixture, except that reading the optional dataset
`/ListenerDescription` fails with an I/O error instead of "not found". -/
def brokenOptFixture : Container :=
  { fullFixture with brokenNodes := ["/ListenerDescription"] }

/-! ## Helper lemmas -/

theorem Obj.getattr_setattr (o : Obj) (n m : String) (v : FieldVal) :
    (o.setattr n v).getattr? m = if m = n then some v else o.getattr? m := rfl

theorem _add_data_preserves (obj : Obj) (c : Container) (node : String)
    (required : Bool) (name : Option String) (r : Obj × Nat) (n : String)
    (h : _add_data obj c node required name = .ok r)
    (hn : n ≠ pick_name name node) : r.1.getattr? n = obj.getattr? n := by
  unfold _add_data at h
  cases hg : c.get_node node with
  | found v =>
    rw [hg] at h
    cases h
    simp [Obj.getattr_setattr, hn]
  | missing =>
    rw [hg] at h
    cases required with
    | true => simp at h
    | false => cases h; rfl
  | ioError => rw [hg] at h; simp at h

theorem _add_attribute_preserves (obj : Obj) (c : Container) (node attr : String)
    (required : Bool) (name : Option String) (r : Obj × Nat) (n : String)
    (h : _add_attribute obj c node attr required name = .ok r)
    (hn : n ≠ pick_name name attr) : r.1.getattr? n = obj.getattr? n := by
  unfold _add_attribute at h
  cases hg : c.get_node_attr node attr with
  | found v =>
    rw [hg] at h
    cases h
    simp [Obj.getattr_setattr, hn]
  | missing =>
    rw [hg] at h
    cases required with
    | true => simp at h
    | false => cases h; rfl
  | ioError => rw [hg] at h; simp at h

theorem runBinds_preserves (step : Obj → String → Except Exn (Obj × Nat))
    (n : String) :
    ∀ (params : List String) (obj : Obj),
      (∀ o p r, p ∈ params → step o p = .ok r →
        r.1.getattr? n = o.getattr? n) →
      ((runBinds obj step params).1).getattr? n = obj.getattr? n := by
  intro params
  induction params with
  | nil => intro obj _; rfl
  | cons p rest ih =>
    intro obj hstep
    unfold runBinds
    cases hs : step obj p with
    | error e => rfl
    | ok r =>
      rcases r with ⟨o', k⟩
      have h1 : o'.getattr? n = obj.getattr? n :=
        hstep obj p (o', k) (List.mem_cons_self p rest) hs
      rw [ih o' (fun o q r hq hr => hstep o q r (List.mem_cons_of_mem p hq) hr)]
      exact h1

/-- First required root attribute missing (and none broken) makes the
required-attribute loop raise an exception naming a missing attribute. -/
theorem runBinds_req_attr_missing (c : Container) (node : String) :
    ∀ (params : List String) (obj : Obj),
      (∀ a ∈ params, c.get_node_attr node a ≠ .ioError) →
      (∃ a ∈ params, c.get_node_attr node a = .missing) →
      ∃ a ∈ params, c.get_node_attr node a = .missing ∧
        ∃ o, runBinds obj
            (fun o param => _add_attribute o c node param true none) params =
          (o, some (.exception ("Required Attribute " ++ a ++ " not found!"))) := by
  intro params
  induction params with
  | nil => intro obj _ hex; simp at hex
  | cons p rest ih =>
    intro obj hio hex
    cases hg : c.get_node_attr node p with
    | found v =>
      have hex' : ∃ a ∈ rest, c.get_node_attr node a = .missing := by
        rcases hex with ⟨a, ha, hm⟩
        rcases List.mem_cons.mp ha with rfl | ha'
        · rw [hg] at hm; exact absurd hm (by simp)
        · exact ⟨a, ha', hm⟩
      have hio' : ∀ a ∈ rest, c.get_node_attr node a ≠ .ioError :=
        fun a ha => hio a (List.mem_cons_of_mem p ha)
      rcases ih (obj.setattr (pick_name none p) (.str v)) hio' hex' with
        ⟨a, ha, hm, o, ho⟩
      refine ⟨a, List.mem_cons_of_mem p ha, hm, o, ?_⟩
      unfold runBinds _add_attribute
      rw [hg]
      exact ho
    | missing =>
      refine ⟨p, List.mem_cons_self p rest, hg, obj, ?_⟩
      unfold runBinds _add_attribute
      rw [hg]
      simp [pick_name]
    | ioError => exact absurd hg (hio p (List.mem_cons_self p rest))

theorem _add_data_ok_required (obj : Obj) (c : Container) (node : String)
    (name : Option String) (r : Obj × Nat)
    (h : _add_data obj c node true name = .ok r) :
    ∃ v, c.get_node node = .found v ∧
      r.1 = obj.setattr (pick_name name node) (.arr v) := by
  unfold _add_data at h
  cases hg : c.get_node node with
  | found v => rw [hg] at h; cases h; exact ⟨v, rfl, rfl⟩
  | missing => rw [hg] at h; simp at h
  | ioError => rw [hg] at h; simp at h

theorem fir_from_file_keeps_trace (o : Obj) (fs : String → Container)
    (h : Handle) (tr : Trace) : (FIR.from_file o fs (.handle h) tr).2.1 = tr := by
  unfold FIR.from_file
  dsimp only
  split
  · rfl
  · split
    · rfl
    · rfl

theorem audio_from_file_keeps_trace (a : AudioObject)
    (fs : String → Container) (h : Handle) (tr : Trace) :
    (AudioObject.from_file a fs (.handle h) tr).2.1 = tr := by
  unfold AudioObject.from_file
  dsimp only
  split
  · rfl
  · split
    · rfl
    · split
      · rfl
      · rfl

theorem fir_init_keeps_trace (fs : String → Container) (h : Handle)
    (tr : Trace) : (FIR.init (some (.handle h)) fs tr).2.1 = tr := by
  unfold FIR.init
  exact fir_from_file_keeps_trace _ fs h tr

theorem audio_init_keeps_trace (os : String) (fs : String → Container)
    (h : Handle) (tr : Trace) :
    (AudioObject.init os (some (.handle h)) fs tr).2.1 = tr := by
  unfold AudioObject.init
  exact audio_from_file_keeps_trace _ fs h tr

theorem sofa_from_file_keeps_trace (s : SOFA) (fs : String → Container)
    (h : Handle) (tr : Trace) : (SOFA.from_file s fs (.handle h) tr).2.1 = tr := by
  unfold SOFA.from_file
  dsimp only
  split
  · rfl
  · split
    · rfl
    · split
      · rename_i ao tr1 e heq
        have h1 := audio_init_keeps_trace "Listener" fs h tr
        rw [heq] at h1
        exact h1
      · rename_i ao1 tr1 heq1
        have h1 := audio_init_keeps_trace "Listener" fs h tr
        rw [heq1] at h1
        dsimp at h1
        subst h1
        split
        · rename_i ao tr2 e heq
          have h2 := audio_init_keeps_trace "Source" fs h tr1
          rw [heq] at h2
          exact h2
        · rename_i ao2 tr2 heq2
          have h2 := audio_init_keeps_trace "Source" fs h tr1
          rw [heq2] at h2
          dsimp at h2
          subst h2
          split
          · rename_i ao tr3 e heq
            have h3 := audio_init_keeps_trace "Receiver" fs h tr2
            rw [heq] at h3
            exact h3
          · rename_i ao3 tr3 heq3
            have h3 := audio_init_keeps_trace "Receiver" fs h tr2
            rw [heq3] at h3
            dsimp at h3
            subst h3
            split
            · rename_i ao tr4 e heq
              have h4 := audio_init_keeps_trace "Emitter" fs h tr3
              rw [heq] at h4
              exact h4
            · rename_i ao4 tr4 heq4
              have h4 := audio_init_keeps_trace "Emitter" fs h tr3
              rw [heq4] at h4
              dsimp at h4
              subst h4
              split
              · split
                · split
                  · rename_i fo tr5 e heq
                    have h5 := fir_init_keeps_trace fs h tr4
                    rw [heq] at h5
                    exact h5
                  · rename_i fo5 tr5 heq5
                    have h5 := fir_init_keeps_trace fs h tr4
                    rw [heq5] at h5
                    dsimp at h5
                    subst h5
                    rfl
                · rfl
              · rfl

theorem sofa_init_keeps_trace (fs : String → Container) (h : Handle)
    (tr : Trace) : (SOFA.init (some (.handle h)) fs tr).2.1 = tr := by
  unfold SOFA.init
  exact sofa_from_file_keeps_trace _ fs h tr

theorem _add_attribute_ok_required (obj : Obj) (c : Container)
    (node attr : String) (name : Option String) (r : Obj × Nat)
    (h : _add_attribute obj c node attr true name = .ok r) :
    ∃ v, c.get_node_attr node attr = .found v ∧
      r.1 = obj.setattr (pick_name name attr) (.str v) := by
  unfold _add_attribute at h
  cases hg : c.get_node_attr node attr with
  | found v => rw [hg] at h; cases h; exact ⟨v, rfl, rfl⟩
  | missing => rw [hg] at h; simp at h
  | ioError => rw [hg] at h; simp at h

theorem _add_data_keeps_bound (obj : Obj) (c : Container) (node : String)
    (required : Bool) (name : Option String) (r : Obj × Nat) (n : String)
    (h : _add_data obj c node required name = .ok r)
    (hb : obj.getattr? n ≠ none) : r.1.getattr? n ≠ none := by
  unfold _add_data at h
  cases hg : c.get_node node with
  | found v =>
    rw [hg] at h
    cases h
    dsimp only
    rw [Obj.getattr_setattr]
    by_cases hn : n = pick_name name node
    · rw [if_pos hn]; simp
    · rw [if_neg hn]; exact hb
  | missing =>
    rw [hg] at h
    cases required with
    | true => simp at h
    | false => cases h; exact hb
  | ioError => rw [hg] at h; simp at h

theorem _add_attribute_keeps_bound (obj : Obj) (c : Container)
    (node attr : String) (required : Bool) (name : Option String)
    (r : Obj × Nat) (n : String)
    (h : _add_attribute obj c node attr required name = .ok r)
    (hb : obj.getattr? n ≠ none) : r.1.getattr? n ≠ none := by
  unfold _add_attribute at h
  cases hg : c.get_node_attr node attr with
  | found v =>
    rw [hg] at h
    cases h
    dsimp only
    rw [Obj.getattr_setattr]
    by_cases hn : n = pick_name name attr
    · rw [if_pos hn]; simp
    · rw [if_neg hn]; exact hb
  | missing =>
    rw [hg] at h
    cases required with
    | true => simp at h
    | false => cases h; exact hb
  | ioError => rw [hg] at h; simp at h

theorem runBinds_keeps_bound (step : Obj → String → Except Exn (Obj × Nat))
    (n : String) :
    ∀ (params : List String) (obj : Obj),
      (∀ o p r, p ∈ params → step o p = .ok r →
        o.getattr? n ≠ none → r.1.getattr? n ≠ none) →
      obj.getattr? n ≠ none →
      ((runBinds obj step params).1).getattr? n ≠ none := by
  intro params
  induction params with
  | nil => intro obj _ hb; exact hb
  | cons p rest ih =>
    intro obj hstep hb
    unfold runBinds
    cases hs : step obj p with
    | error e => exact hb
    | ok r =>
      rcases r with ⟨o', k⟩
      exact ih o' (fun o q r hq hr => hstep o q r (List.mem_cons_of_mem p hq) hr)
        (hstep obj p (o', k) (List.mem_cons_self p rest) hs hb)

theorem runBinds_attr_binds_names (c : Container) (node : String)
    (mk : String → Option String) :
    ∀ (params : List String) (obj o' : Obj),
      runBinds obj
          (fun o param => _add_attribute o c node param true (mk param))
          params = (o', none) →
      ∀ a ∈ params, o'.getattr? (pick_name (mk a) a) ≠ none := by
  intro params
  induction params with
  | nil => intro obj o' _ a ha; simp at ha
  | cons p rest ih =>
    intro obj o' hrun a ha
    simp only [runBinds] at hrun
    cases hs : _add_attribute obj c node p true (mk p) with
    | error e => rw [hs] at hrun; simp at hrun
    | ok r =>
      rcases r with ⟨o1, k⟩
      rw [hs] at hrun
      dsimp only at hrun
      rcases List.mem_cons.mp ha with rfl | ha'
      · rcases _add_attribute_ok_required obj c node a (mk a) (o1, k) hs with
          ⟨v, hv, hset⟩
        dsimp only at hset
        have hb : o1.getattr? (pick_name (mk a) a) ≠ none := by
          rw [hset, Obj.getattr_setattr, if_pos rfl]
          simp
        have hk := runBinds_keeps_bound
          (fun o param => _add_attribute o c node param true (mk param))
          (pick_name (mk a) a) rest o1
          (fun o q r' hq hr' hbb =>
            _add_attribute_keeps_bound o c node q true (mk q) r'
              (pick_name (mk a) a) hr' hbb)
          hb
        rw [hrun] at hk
        exact hk
      · exact ih o1 o' hrun a ha'

theorem runBinds_data_binds_names (c : Container) (mkNode : String → String)
    (mk : String → Option String) :
    ∀ (params : List String) (obj o' : Obj),
      runBinds obj
          (fun o param => _add_data o c (mkNode param) true (mk param))
          params = (o', none) →
      ∀ a ∈ params, o'.getattr? (pick_name (mk a) (mkNode a)) ≠ none := by
  intro params
  induction params with
  | nil => intro obj o' _ a ha; simp at ha
  | cons p rest ih =>
    intro obj o' hrun a ha
    simp only [runBinds] at hrun
    cases hs : _add_data obj c (mkNode p) true (mk p) with
    | error e => rw [hs] at hrun; simp at hrun
    | ok r =>
      rcases r with ⟨o1, k⟩
      rw [hs] at hrun
      dsimp only at hrun
      rcases List.mem_cons.mp ha with rfl | ha'
      · rcases _add_data_ok_required obj c (mkNode a) (mk a) (o1, k) hs with
          ⟨v, hv, hset⟩
        dsimp only at hset
        have hb : o1.getattr? (pick_name (mk a) (mkNode a)) ≠ none := by
          rw [hset, Obj.getattr_setattr, if_pos rfl]
          simp
        have hk := runBinds_keeps_bound
          (fun o param => _add_data o c (mkNode param) true (mk param))
          (pick_name (mk a) (mkNode a)) rest o1
          (fun o q r' hq hr' hbb =>
            _add_data_keeps_bound o c (mkNode q) true (mk q) r'
              (pick_name (mk a) (mkNode a)) hr' hbb)
          hb
        rw [hrun] at hk
        exact hk
      · exact ih o1 o' hrun a ha'

theorem audio_from_file_success_binds (c : Container) (fs : String → Container)
    (a : AudioObject) (tr : Trace) (i : Nat)
    (h : (AudioObject.from_file a fs (.handle ⟨c, i⟩) tr).2.2 = none) :
    (AudioObject.from_file a fs (.handle ⟨c, i⟩) tr).1.obj.getattr?
      "Position" ≠ none ∧
    (AudioObject.from_file a fs (.handle ⟨c, i⟩) tr).1.obj.getattr?
      "PositionType" ≠ none ∧
    (AudioObject.from_file a fs (.handle ⟨c, i⟩) tr).1.obj.getattr?
      "PositionUnits" ≠ none := by
  unfold AudioObject.from_file at h ⊢
  dsimp only at h ⊢
  split at h
  · exact absurd h (by simp)
  · rename_i o1 heq1
    split at h
    · exact absurd h (by simp)
    · rename_i o2 heq2
      split at h
      · exact absurd h (by simp)
      · rename_i o3 heq3
        dsimp only
        have hb1 : o1.getattr? "Position" ≠ none := by
          have hk := runBinds_data_binds_names c
            (fun param => "/" ++ a.object_string ++ param)
            (fun param => some param) AudioObject.required_datasets a.obj o1
            heq1 "Position" (by decide)
          exact hk
        have hb2t : o2.getattr? "PositionType" ≠ none := by
          have hk := runBinds_attr_binds_names c
            ("/" ++ a.object_string ++ "Position")
            (fun param => some ("Position" ++ param)) AudioObject.req_attributes
            o1 o2 heq2 "Type" (by decide)
          exact hk
        have hb2u : o2.getattr? "PositionUnits" ≠ none := by
          have hk := runBinds_attr_binds_names c
            ("/" ++ a.object_string ++ "Position")
            (fun param => some ("Position" ++ param)) AudioObject.req_attributes
            o1 o2 heq2 "Units" (by decide)
          exact hk
        have hb2p : o2.getattr? "Position" ≠ none := by
          have hk := runBinds_keeps_bound
            (fun o param => _add_attribute o c
              ("/" ++ a.object_string ++ "Position") param true
              (some ("Position" ++ param)))
            "Position" AudioObject.req_attributes o1
            (fun o q r' hq hr' hbb =>
              _add_attribute_keeps_bound o c
                ("/" ++ a.object_string ++ "Position") q true
                (some ("Position" ++ q)) r' "Position" hr' hbb)
            hb1
          rw [heq2] at hk
          exact hk
        have hkeep3 : ∀ n : String, o2.getattr? n ≠ none →
            o3.getattr? n ≠ none := by
          intro n hbb
          have hk := runBinds_keeps_bound
            (fun o param => _add_data o c ("/" ++ a.object_string ++ param)
              false (some param))
            n AudioObject.other_datasets o2
            (fun o q r' hq hr' hb' =>
              _add_data_keeps_bound o c ("/" ++ a.object_string ++ q) false
                (some q) r' n hr' hb')
            hbb
          rw [heq3] at hk
          exact hk
        exact ⟨hkeep3 _ hb2p, hkeep3 _ hb2t, hkeep3 _ hb2u⟩

theorem fir_from_file_success_binds (c : Container) (fs : String → Container)
    (o : Obj) (tr : Trace) (i : Nat)
    (h : (FIR.from_file o fs (.handle ⟨c, i⟩) tr).2.2 = none) :
    (FIR.from_file o fs (.handle ⟨c, i⟩) tr).1.getattr? "IR" ≠ none ∧
    (FIR.from_file o fs (.handle ⟨c, i⟩) tr).1.getattr? "Delay" ≠ none ∧
    (FIR.from_file o fs (.handle ⟨c, i⟩) tr).1.getattr?
      "SamplingRate" ≠ none ∧
    (FIR.from_file o fs (.handle ⟨c, i⟩) tr).1.getattr?
      "SamplingRateUnits" ≠ none := by
  unfold FIR.from_file at h ⊢
  dsimp only at h ⊢
  split at h
  · exact absurd h (by simp)
  · rename_i o1 heq1
    split at h
    · exact absurd h (by simp)
    · rename_i o2 heq2
      dsimp only
      have hbIR : o1.getattr? "IR" ≠ none := by
        have hk := runBinds_data_binds_names c (fun param => "/" ++ param)
          (fun param => some (param.drop 5)) FIR.datasets o o1 heq1
          "Data.IR" (by decide)
        exact hk
      have hbD : o1.getattr? "Delay" ≠ none := by
        have hk := runBinds_data_binds_names c (fun param => "/" ++ param)
          (fun param => some (param.drop 5)) FIR.datasets o o1 heq1
          "Data.Delay" (by decide)
        exact hk
      have hbS : o1.getattr? "SamplingRate" ≠ none := by
        have hk := runBinds_data_binds_names c (fun param => "/" ++ param)
          (fun param => some (param.drop 5)) FIR.datasets o o1 heq1
          "Data.SamplingRate" (by decide)
        exact hk
      have hbU : o2.getattr? "SamplingRateUnits" ≠ none := by
        have hk := runBinds_attr_binds_names c ("/" ++ "Data.SamplingRate")
          (fun param => some ("SamplingRate" ++ param)) FIR.attributes o1 o2
          heq2 "Units" (by decide)
        exact hk
      have hkeep : ∀ n : String, o1.getattr? n ≠ none →
          o2.getattr? n ≠ none := by
        intro n hbb
        have hk := runBinds_keeps_bound
          (fun o param => _add_attribute o c ("/" ++ "Data.SamplingRate")
            param true (some ("SamplingRate" ++ param)))
          n FIR.attributes o1
          (fun o q r' hq hr' hb' =>
            _add_attribute_keeps_bound o c ("/" ++ "Data.SamplingRate") q true
              (some ("SamplingRate" ++ q)) r' n hr' hb')
          hbb
        rw [heq2] at hk
        exact hk
      exact ⟨hkeep _ hbIR, hkeep _ hbD, hkeep _ hbS, hbU⟩

/-! ## The claims -/

/-- C1: constructing an `AudioObject` or `FIR` from a string path opens the
hardcoded file `dtf_nh2.sofa`, not the caller-supplied path (here the
caller's `mydata.sofa` is well-formed, yet construction reads the empty
`dtf_nh2.sofa` and fails); only `SOFA.from_file` opens the caller's path. -/
theorem c1_string_path_opens_hardcoded_file :
    (AudioObject.from_file ⟨"Listener", Obj.empty⟩ exampleFS (.path "mydata.sofa")
        Trace.init).2.1.opened = ["dtf_nh2.sofa"] ∧
    (AudioObject.from_file ⟨"Listener", Obj.empty⟩ exampleFS (.path "mydata.sofa")
        Trace.init).2.2 ≠ none ∧
    (FIR.from_file Obj.empty exampleFS (.path "mydata.sofa")
        Trace.init).2.1.opened = ["dtf_nh2.sofa"] ∧
    (FIR.from_file Obj.empty exampleFS (.path "mydata.sofa")
        Trace.init).2.2 ≠ none ∧
    (SOFA.from_file SOFA.empty exampleFS (.path "mydata.sofa")
        Trace.init).2.1.opened = ["mydata.sofa"] ∧
    (SOFA.from_file SOFA.empty exampleFS (.path "mydata.sofa")
        Trace.init).2.2 = none := by
  decide

/-- C2: constructing a `SOFA` from a string path over a container missing a
required attribute raises before the `close()` call is reached: the
internally-opened handle (id 0) is never closed.  On the success path the
handle is closed. -/
theorem c2_handle_leaked_on_failed_path_construction :
    (SOFA.from_file SOFA.empty emptyFS (.path "f.sofa") Trace.init).2.2 =
      some (.exception "Required Attribute Conventions not found!") ∧
    (SOFA.from_file SOFA.empty emptyFS (.path "f.sofa")
        Trace.init).2.1.opened = ["f.sofa"] ∧
    (SOFA.from_file SOFA.empty emptyFS (.path "f.sofa")
        Trace.init).2.1.closed = [] ∧
    (SOFA.from_file SOFA.empty fullFS (.path "f.sofa") Trace.init).2.2 = none ∧
    (SOFA.from_file SOFA.empty fullFS (.path "f.sofa")
        Trace.init).2.1.closed = [0] := by
  decide

/-- C3: a missing required field fails construction with an exception whose
message names the missing dataset path or attribute: at the binder level
for datasets and attributes, and end-to-end for the 14 required root
attributes (when some required root attribute is absent and none is broken,
`SOFA` construction fails naming a missing required attribute). -/
theorem c3_required_missing_fails_naming_field (c : Container) (attr : String)
    (obj : Obj) (node : String) (name : Option String)
    (hmem : attr ∈ SOFA.req_attributes)
    (hmiss : c.get_node_attr "/" attr = .missing)
    (hio : ∀ a ∈ SOFA.req_attributes, c.get_node_attr "/" a ≠ .ioError) :
    (∀ c' : Container, c'.get_node node = .missing →
      _add_data obj c' node true name =
        .error (.exception ("Required Dataset " ++ node ++ " not found!"))) ∧
    (∀ c' : Container, c'.get_node_attr node attr = .missing →
      _add_attribute obj c' node attr true name =
        .error (.exception ("Required Attribute " ++ attr ++ " not found!"))) ∧
    (∃ a ∈ SOFA.req_attributes, c.get_node_attr "/" a = .missing ∧
      (runOn c).2.2 =
        some (.exception ("Required Attribute " ++ a ++ " not found!"))) := by
  refine ⟨?_, ?_, ?_⟩
  · intro c' hg; simp [_add_data, hg]
  · intro c' hg; simp [_add_attribute, hg]
  · have hex : ∃ a ∈ SOFA.req_attributes, c.get_node_attr "/" a = .missing :=
      ⟨attr, hmem, hmiss⟩
    rcases runBinds_req_attr_missing c "/" SOFA.req_attributes SOFA.empty.obj
        hio hex with ⟨a, ha, hm, o, ho⟩
    refine ⟨a, ha, hm, ?_⟩
    unfold runOn SOFA.from_file
    dsimp only
    rw [ho]

/-- Witness for C3 at the empty container: the first required root
attribute, `Conventions`, is reported missing. -/
theorem c3_witness :
    ∃ a ∈ SOFA.req_attributes, emptyContainer.get_node_attr "/" a = .missing ∧
      (runOn emptyContainer).2.2 =
        some (.exception ("Required Attribute " ++ a ++ " not found!")) :=
  (c3_required_missing_fails_naming_field emptyContainer "Conventions"
      Obj.empty "/X" none (by decide) (by decide) (by decide)).2.2

/-- C4: removing any one of the 6 optional root attributes, or any optional
geometry dataset `Description`/`View`/`Up` of any role, from the
well-formed fixture still yields a successful construction, and the
corresponding destination field is explicitly unbound (`getattr` finds
nothing) — distinguishable from every present value `some v`, in particular
from a present-but-empty string `some (.str "")`. -/
theorem c4_optional_absent_is_explicitly_unbound :
    (∀ X ∈ SOFA.other_attributes,
      (runOn (fixtureWithoutAttr X)).2.2 = none ∧
      (runOn (fixtureWithoutAttr X)).1.obj.getattr? X = none) ∧
    (∀ d ∈ AudioObject.other_datasets,
      ((runOn (fixtureWithoutNode ("/Listener" ++ d))).2.2 = none ∧
       optField? (runOn (fixtureWithoutNode ("/Listener" ++ d))).1.listener d =
         none) ∧
      ((runOn (fixtureWithoutNode ("/Source" ++ d))).2.2 = none ∧
       optField? (runOn (fixtureWithoutNode ("/Source" ++ d))).1.source d =
         none) ∧
      ((runOn (fixtureWithoutNode ("/Receiver" ++ d))).2.2 = none ∧
       optField? (runOn (fixtureWithoutNode ("/Receiver" ++ d))).1.receiver d =
         none) ∧
      ((runOn (fixtureWithoutNode ("/Emitter" ++ d))).2.2 = none ∧
       optField? (runOn (fixtureWithoutNode ("/Emitter" ++ d))).1.emitter d =
         none)) := by
  decide

/-- Witness for C4 at `Comment` (optional root attribute) and `View`
(optional geometry dataset). -/
theorem c4_witness :
    ((runOn (fixtureWithoutAttr "Comment")).2.2 = none ∧
     (runOn (fixtureWithoutAttr "Comment")).1.obj.getattr? "Comment" = none) ∧
    ((runOn (fixtureWithoutNode ("/Listener" ++ "View"))).2.2 = none ∧
     optField? (runOn (fixtureWithoutNode ("/Listener" ++ "View"))).1.listener
       "View" = none) :=
  ⟨c4_optional_absent_is_explicitly_unbound.1 "Comment" (by decide),
   (c4_optional_absent_is_explicitly_unbound.2 "View" (by decide)).1⟩

/-- C5 counterexample: with root `DataType = "XYZ"` on an otherwise
well-formed container, construction fails with the fixed message
`Currently only the Datatype FIR is Implemented`, which does not mention
the unrecognized tag `XYZ` — contrary to the claim that the error names
the tag. -/
theorem c5_counterexample_error_does_not_name_tag :
    (runOn (fixtureDT "XYZ")).2.2 =
      some (.exception "Currently only the Datatype FIR is Implemented") ∧
    ¬ ("XYZ".toList <:+: "Currently only the Datatype FIR is Implemented".toList) := by
  decide

/-- C5 (amended): for every root `DataType` value other than `"FIR"` on the
otherwise well-formed fixture, construction fails with the fixed
`Currently only the Datatype FIR is Implemented` exception, whose text is
independent of (and does not name) the unrecognized tag. -/
theorem c5_unregistered_datatype_fails (tag : String) (h : tag ≠ "FIR") :
    (runOn (fixtureDT tag)).2.2 =
      some (.exception "Currently only the Datatype FIR is Implemented") := by
  simp +decide [runOn, SOFA.from_file, runBinds, _add_attribute, _add_data,
    Container.get_node_attr, Container.get_node, fixtureDT, pick_name,
    AudioObject.init, AudioObject.from_file, FIR.init, FIR.from_file,
    SofaFile.truthy, Obj.getattr?, Obj.setattr, Obj.empty, SOFA.empty,
    open_file, Handle.close, SOFA.req_attributes, SOFA.other_attributes,
    AudioObject.required_datasets, AudioObject.req_attributes,
    AudioObject.other_datasets, FIR.datasets, FIR.attributes, lookupKey, h]

/-- Witness for C5's amended theorem at `tag = "XYZ"`. -/
theorem c5_witness :
    (runOn (fixtureDT "XYZ")).2.2 =
      some (.exception "Currently only the Datatype FIR is Implemented") :=
  c5_unregistered_datatype_fails "XYZ" (by decide)

/-- C6: an underlying read failure other than "not found" escalates from
the field binders regardless of the `required` flag, while a "not found"
on a non-required field is downgraded to a silent absent outcome; and such
an I/O failure on an optional field aborts the whole `SOFA` construction. -/
theorem c6_io_error_escalates_regardless_of_required (obj : Obj)
    (c : Container) (node attr : String) (required : Bool)
    (name : Option String) :
    (c.get_node node = .ioError →
      _add_data obj c node required name = .error .ioErr) ∧
    (c.get_node_attr node attr = .ioError →
      _add_attribute obj c node attr required name = .error .ioErr) ∧
    (c.get_node node = .missing →
      _add_data obj c node false name = .ok (obj, 1)) ∧
    (c.get_node_attr node attr = .missing →
      _add_attribute obj c node attr false name = .ok (obj, 1)) ∧
    (runOn brokenOptFixture).2.2 = some .ioErr := by
  refine ⟨?_, ?_, ?_, ?_, by decide⟩
  · intro hg; simp [_add_data, hg]
  · intro hg; simp [_add_attribute, hg]
  · intro hg; simp [_add_data, hg]
  · intro hg; simp [_add_attribute, hg]

/-- Witness for C6 on a container with broken reads at `/X` and attribute
`Y`, with `required = false` everywhere: the I/O failures still escalate. -/
theorem c6_witness :
    _add_data Obj.empty brokenContainer "/X" false none = .error .ioErr ∧
    _add_attribute Obj.empty brokenContainer "/" "Y" false none =
      .error .ioErr ∧
    _add_data Obj.empty brokenContainer "/Z" false none = .ok (Obj.empty, 1) ∧
    _add_attribute Obj.empty brokenContainer "/" "Z" false none =
      .ok (Obj.empty, 1) :=
  ⟨(c6_io_error_escalates_regardless_of_required Obj.empty brokenContainer
      "/X" "Y" false none).1 (by decide),
   (c6_io_error_escalates_regardless_of_required Obj.empty brokenContainer
      "/" "Y" false none).2.1 (by decide),
   (c6_io_error_escalates_regardless_of_required Obj.empty brokenContainer
      "/Z" "Z" false none).2.2.1 (by decide),
   (c6_io_error_escalates_regardless_of_required Obj.empty brokenContainer
      "/Z" "Z" false none).2.2.2.1 (by decide)⟩

/-- C7: a construction invoked with a caller-supplied already-open handle
leaves the handle trace unchanged — no `close()` is ever logged on the
caller's handle, on success or failure, for `SOFA`, `AudioObject` and
`FIR`, both through `from_file` and through the constructors. -/
theorem c7_caller_supplied_handle_never_closed (s : SOFA) (a : AudioObject)
    (o : Obj) (os : String) (fs : String → Container) (h : Handle)
    (tr : Trace) :
    (SOFA.from_file s fs (.handle h) tr).2.1 = tr ∧
    (AudioObject.from_file a fs (.handle h) tr).2.1 = tr ∧
    (FIR.from_file o fs (.handle h) tr).2.1 = tr ∧
    (SOFA.init (some (.handle h)) fs tr).2.1 = tr ∧
    (AudioObject.init os (some (.handle h)) fs tr).2.1 = tr ∧
    (FIR.init (some (.handle h)) fs tr).2.1 = tr :=
  ⟨sofa_from_file_keeps_trace s fs h tr,
   audio_from_file_keeps_trace a fs h tr,
   fir_from_file_keeps_trace o fs h tr,
   sofa_init_keeps_trace fs h tr,
   audio_init_keeps_trace os fs h tr,
   fir_init_keeps_trace fs h tr⟩

/-- C8: a successfully constructed `AudioObject` reports `len` equal to the
outer extent of the position array read from the container. -/
theorem c8_len_is_position_outer_extent (c : Container)
    (fs : String → Container) (a : AudioObject) (tr : Trace) (i : Nat)
    (h : (AudioObject.from_file a fs (.handle ⟨c, i⟩) tr).2.2 = none) :
    ∃ v, c.get_node ("/" ++ a.object_string ++ "Position") = .found v ∧
      (AudioObject.from_file a fs (.handle ⟨c, i⟩) tr).1.len = .ok v.length := by
  unfold AudioObject.from_file at h ⊢
  dsimp only at h ⊢
  split at h
  · exact absurd h (by simp)
  · rename_i o1 heq1
    split at h
    · exact absurd h (by simp)
    · rename_i o2 heq2
      split at h
      · exact absurd h (by simp)
      · rename_i o3 heq3
        simp only [AudioObject.required_datasets, runBinds] at heq1
        cases hd : _add_data a.obj c ("/" ++ a.object_string ++ "Position") true
            (some "Position") with
        | error e => rw [hd] at heq1; simp at heq1
        | ok r =>
          rcases r with ⟨o1', k⟩
          rw [hd] at heq1
          dsimp only at heq1
          have ho1 : o1' = o1 := by
            have := congrArg Prod.fst heq1
            simpa using this
          rw [← ho1] at heq2
          rcases _add_data_ok_required a.obj c _ (some "Position") (o1', k) hd
            with ⟨v, hv, hset⟩
          dsimp only at hset
          have hpick : pick_name (some "Position")
              ("/" ++ a.object_string ++ "Position") = "Position" := rfl
          rw [hpick] at hset
          have hget1 : o1'.getattr? "Position" = some (.arr v) := by
            rw [hset, Obj.getattr_setattr]
            simp
          have hstep2 : ∀ o p r, p ∈ AudioObject.req_attributes →
              (fun o param => _add_attribute o c
                ("/" ++ a.object_string ++ "Position") param true
                (some ("Position" ++ param))) o p = .ok r →
              r.1.getattr? "Position" = o.getattr? "Position" := by
            intro o p r hp hr
            have hp' : p = "Type" ∨ p = "Units" := by
              simpa [AudioObject.req_attributes] using hp
            rcases hp' with rfl | rfl
            · exact _add_attribute_preserves o c _ _ true _ r "Position" hr
                (by decide)
            · exact _add_attribute_preserves o c _ _ true _ r "Position" hr
                (by decide)
          have hp2 := runBinds_preserves
            (fun o param => _add_attribute o c
              ("/" ++ a.object_string ++ "Position") param true
              (some ("Position" ++ param)))
            "Position" AudioObject.req_attributes o1' hstep2
          rw [heq2] at hp2
          dsimp only at hp2
          have hstep3 : ∀ o p r, p ∈ AudioObject.other_datasets →
              (fun o param => _add_data o c
                ("/" ++ a.object_string ++ param) false (some param)) o p =
                .ok r →
              r.1.getattr? "Position" = o.getattr? "Position" := by
            intro o p r hp hr
            have hp' : p = "Description" ∨ p = "View" ∨ p = "Up" := by
              simpa [AudioObject.other_datasets] using hp
            rcases hp' with rfl | rfl | rfl
            · refine _add_data_preserves o c _ false _ r "Position" hr ?_
              rw [show pick_name (some "Description")
                ("/" ++ a.object_string ++ "Description") = "Description" from
                rfl]
              decide
            · refine _add_data_preserves o c _ false _ r "Position" hr ?_
              rw [show pick_name (some "View")
                ("/" ++ a.object_string ++ "View") = "View" from rfl]
              decide
            · refine _add_data_preserves o c _ false _ r "Position" hr ?_
              rw [show pick_name (some "Up")
                ("/" ++ a.object_string ++ "Up") = "Up" from rfl]
              decide
          have hp3 := runBinds_preserves
            (fun o param => _add_data o c
              ("/" ++ a.object_string ++ param) false (some param))
            "Position" AudioObject.other_datasets o2 hstep3
          rw [heq3] at hp3
          dsimp only at hp3
          refine ⟨v, hv, ?_⟩
          dsimp only [AudioObject.len]
          rw [hp3, hp2, hget1]

/-- Witness for C8 on the full fixture's Listener role. -/
theorem c8_witness :
    ∃ v, fullFixture.get_node ("/" ++ "Listener" ++ "Position") = .found v ∧
      (AudioObject.from_file ⟨"Listener", Obj.empty⟩ (fun _ => fullFixture)
          (.handle ⟨fullFixture, 0⟩) Trace.init).1.len = .ok v.length :=
  c8_len_is_position_outer_extent fullFixture (fun _ => fullFixture)
    ⟨"Listener", Obj.empty⟩ Trace.init 0 (by decide)

/-- C9 counterexample: on a container with `Conventions` present but
`Version` missing, `from_file` on a fresh `SOFA` fails, yet the object
carries the already-bound `Conventions` field — a partially-populated
aggregate is observable, contrary to the all-or-nothing claim. -/
theorem c9_counterexample_partial_object_after_failure :
    (runOn (fixtureWithoutAttr "Version")).2.2 ≠ none ∧
    (runOn (fixtureWithoutAttr "Version")).1.obj.getattr? "Conventions" ≠
      none := by
  decide

/-- C9 (amended): construction never returns success with a required field
missing — for every container, a successful construction has all 14
required root attributes bound, the four geometry entities present with
`Position`/`PositionType`/`PositionUnits` bound, and the FIR payload
present with `IR`/`Delay`/`SamplingRate`/`SamplingRateUnits` bound (so any
required-bind failure surfaces as a raised error, never as a silent
success); however construction is not all-or-nothing at the field level:
after a failed `from_file` the object retains the fields bound before the
failure point (here: `Version` missing leaves `Conventions` bound). -/
theorem c9_success_implies_required_fields_bound (c : Container)
    (h : (runOn c).2.2 = none) :
    (∀ a ∈ SOFA.req_attributes, (runOn c).1.obj.getattr? a ≠ none) ∧
    ((runOn c).1.listener ≠ none ∧
     optField? (runOn c).1.listener "Position" ≠ none ∧
     optField? (runOn c).1.listener "PositionType" ≠ none ∧
     optField? (runOn c).1.listener "PositionUnits" ≠ none) ∧
    ((runOn c).1.source ≠ none ∧
     optField? (runOn c).1.source "Position" ≠ none ∧
     optField? (runOn c).1.source "PositionType" ≠ none ∧
     optField? (runOn c).1.source "PositionUnits" ≠ none) ∧
    ((runOn c).1.receiver ≠ none ∧
     optField? (runOn c).1.receiver "Position" ≠ none ∧
     optField? (runOn c).1.receiver "PositionType" ≠ none ∧
     optField? (runOn c).1.receiver "PositionUnits" ≠ none) ∧
    ((runOn c).1.emitter ≠ none ∧
     optField? (runOn c).1.emitter "Position" ≠ none ∧
     optField? (runOn c).1.emitter "PositionType" ≠ none ∧
     optField? (runOn c).1.emitter "PositionUnits" ≠ none) ∧
    ((runOn c).1.data ≠ none ∧
     optDataField? (runOn c).1.data "IR" ≠ none ∧
     optDataField? (runOn c).1.data "Delay" ≠ none ∧
     optDataField? (runOn c).1.data "SamplingRate" ≠ none ∧
     optDataField? (runOn c).1.data "SamplingRateUnits" ≠ none) ∧
    ((runOn (fixtureWithoutAttr "Version")).2.2 ≠ none ∧
     (runOn (fixtureWithoutAttr "Version")).1.obj.getattr? "Conventions" =
       some (.str "SOFA")) := by
  have main :
      (∀ a ∈ SOFA.req_attributes, (runOn c).1.obj.getattr? a ≠ none) ∧
      ((runOn c).1.listener ≠ none ∧
       optField? (runOn c).1.listener "Position" ≠ none ∧
       optField? (runOn c).1.listener "PositionType" ≠ none ∧
       optField? (runOn c).1.listener "PositionUnits" ≠ none) ∧
      ((runOn c).1.source ≠ none ∧
       optField? (runOn c).1.source "Position" ≠ none ∧
       optField? (runOn c).1.source "PositionType" ≠ none ∧
       optField? (runOn c).1.source "PositionUnits" ≠ none) ∧
      ((runOn c).1.receiver ≠ none ∧
       optField? (runOn c).1.receiver "Position" ≠ none ∧
       optField? (runOn c).1.receiver "PositionType" ≠ none ∧
       optField? (runOn c).1.receiver "PositionUnits" ≠ none) ∧
      ((runOn c).1.emitter ≠ none ∧
       optField? (runOn c).1.emitter "Position" ≠ none ∧
       optField? (runOn c).1.emitter "PositionType" ≠ none ∧
       optField? (runOn c).1.emitter "PositionUnits" ≠ none) ∧
      ((runOn c).1.data ≠ none ∧
       optDataField? (runOn c).1.data "IR" ≠ none ∧
       optDataField? (runOn c).1.data "Delay" ≠ none ∧
       optDataField? (runOn c).1.data "SamplingRate" ≠ none ∧
       optDataField? (runOn c).1.data "SamplingRateUnits" ≠ none) := by
    unfold runOn SOFA.from_file at h ⊢
    dsimp only at h ⊢
    split at h
    · exact absurd h (by simp)
    · rename_i o1 heq1
      split at h
      · exact absurd h (by simp)
      · rename_i o2 heq2
        split at h
        · exact absurd h (by simp)
        · rename_i aoL trL heqL
          split at h
          · exact absurd h (by simp)
          · rename_i aoS trS heqS
            split at h
            · exact absurd h (by simp)
            · rename_i aoR trR heqR
              split at h
              · exact absurd h (by simp)
              · rename_i aoE trE heqE
                split at h
                · rename_i v hdt
                  split at h
                  · rename_i hvF
                    split at h
                    · exact absurd h (by simp)
                    · rename_i fo trF heqF
                      rw [if_pos hvF]
                      have hroot : ∀ a ∈ SOFA.req_attributes,
                          o2.getattr? a ≠ none := by
                        intro a ha
                        have hb1 := runBinds_attr_binds_names c "/"
                          (fun _ => none) SOFA.req_attributes SOFA.empty.obj
                          o1 heq1 a ha
                        have hk := runBinds_keeps_bound
                          (fun o param =>
                            _add_attribute o c "/" param false none)
                          a SOFA.other_attributes o1
                          (fun o q r' hq hr' hb' =>
                            _add_attribute_keeps_bound o c "/" q false none
                              r' a hr' hb')
                          hb1
                        rw [heq2] at hk
                        exact hk
                      have hffL : AudioObject.from_file ⟨"Listener", Obj.empty⟩
                          (fun _ => c) (.handle ⟨c, 0⟩) Trace.init =
                          (aoL, trL, none) := heqL
                      have hL := audio_from_file_success_binds c (fun _ => c)
                        ⟨"Listener", Obj.empty⟩ Trace.init 0 (by rw [hffL])
                      rw [hffL] at hL
                      have hffS : AudioObject.from_file ⟨"Source", Obj.empty⟩
                          (fun _ => c) (.handle ⟨c, 0⟩) trL =
                          (aoS, trS, none) := heqS
                      have hS := audio_from_file_success_binds c (fun _ => c)
                        ⟨"Source", Obj.empty⟩ trL 0 (by rw [hffS])
                      rw [hffS] at hS
                      have hffR : AudioObject.from_file ⟨"Receiver", Obj.empty⟩
                          (fun _ => c) (.handle ⟨c, 0⟩) trS =
                          (aoR, trR, none) := heqR
                      have hR := audio_from_file_success_binds c (fun _ => c)
                        ⟨"Receiver", Obj.empty⟩ trS 0 (by rw [hffR])
                      rw [hffR] at hR
                      have hffE : AudioObject.from_file ⟨"Emitter", Obj.empty⟩
                          (fun _ => c) (.handle ⟨c, 0⟩) trR =
                          (aoE, trE, none) := heqE
                      have hE := audio_from_file_success_binds c (fun _ => c)
                        ⟨"Emitter", Obj.empty⟩ trR 0 (by rw [hffE])
                      rw [hffE] at hE
                      have hffF : FIR.from_file Obj.empty (fun _ => c)
                          (.handle ⟨c, 0⟩) trE = (fo, trF, none) := heqF
                      have hF := fir_from_file_success_binds c (fun _ => c)
                        Obj.empty trE 0 (by rw [hffF])
                      rw [hffF] at hF
                      dsimp only [optField?, optDataField?]
                      exact ⟨hroot,
                        ⟨by simp, hL.1, hL.2.1, hL.2.2⟩,
                        ⟨by simp, hS.1, hS.2.1, hS.2.2⟩,
                        ⟨by simp, hR.1, hR.2.1, hR.2.2⟩,
                        ⟨by simp, hE.1, hE.2.1, hE.2.2⟩,
                        ⟨by simp, hF.1, hF.2.1, hF.2.2.1, hF.2.2.2⟩⟩
                  · exact absurd h (by simp)
                · exact absurd h (by simp)
  exact ⟨main.1, main.2.1, main.2.2.1, main.2.2.2.1, main.2.2.2.2.1,
    main.2.2.2.2.2, by decide⟩

/-- Witness for C9's amended theorem on the well-formed fixture. -/
theorem c9_witness :
    (∀ a ∈ SOFA.req_attributes,
      (runOn fullFixture).1.obj.getattr? a ≠ none) ∧
    ((runOn fullFixture).1.listener ≠ none ∧
     optField? (runOn fullFixture).1.listener "Position" ≠ none ∧
     optField? (runOn fullFixture).1.listener "PositionType" ≠ none ∧
     optField? (runOn fullFixture).1.listener "PositionUnits" ≠ none) ∧
    ((runOn fullFixture).1.source ≠ none ∧
     optField? (runOn fullFixture).1.source "Position" ≠ none ∧
     optField? (runOn fullFixture).1.source "PositionType" ≠ none ∧
     optField? (runOn fullFixture).1.source "PositionUnits" ≠ none) ∧
    ((runOn fullFixture).1.receiver ≠ none ∧
     optField? (runOn fullFixture).1.receiver "Position" ≠ none ∧
     optField? (runOn fullFixture).1.receiver "PositionType" ≠ none ∧
     optField? (runOn fullFixture).1.receiver "PositionUnits" ≠ none) ∧
    ((runOn fullFixture).1.emitter ≠ none ∧
     optField? (runOn fullFixture).1.emitter "Position" ≠ none ∧
     optField? (runOn fullFixture).1.emitter "PositionType" ≠ none ∧
     optField? (runOn fullFixture).1.emitter "PositionUnits" ≠ none) ∧
    ((runOn fullFixture).1.data ≠ none ∧
     optDataField? (runOn fullFixture).1.data "IR" ≠ none ∧
     optDataField? (runOn fullFixture).1.data "Delay" ≠ none ∧
     optDataField? (runOn fullFixture).1.data "SamplingRate" ≠ none ∧
     optDataField? (runOn fullFixture).1.data "SamplingRateUnits" ≠ none) ∧
    ((runOn (fixtureWithoutAttr "Version")).2.2 ≠ none ∧
     (runOn (fixtureWithoutAttr "Version")).1.obj.getattr? "Conventions" =
       some (.str "SOFA")) :=
  c9_success_implies_required_fields_bound fullFixture (by decide)

/-- C10: a falsy `sofa_file` argument (`None` or the empty string) makes
every constructor return immediately: no file is opened or read, no error
is raised, and the object has no fields bound. -/
theorem c10_falsy_sofa_file_skips_read (fs : String → Container) (tr : Trace)
    (os : String) :
    SOFA.init none fs tr = (SOFA.empty, tr, none) ∧
    SOFA.init (some (.path "")) fs tr = (SOFA.empty, tr, none) ∧
    FIR.init none fs tr = (Obj.empty, tr, none) ∧
    FIR.init (some (.path "")) fs tr = (Obj.empty, tr, none) ∧
    AudioObject.init os none fs tr = (⟨os, Obj.empty⟩, tr, none) ∧
    AudioObject.init os (some (.path "")) fs tr = (⟨os, Obj.empty⟩, tr, none) :=
  ⟨rfl, rfl, rfl, rfl, rfl, rfl⟩

end PySofa
